import Mathlib

/-!
Verification development for the ListenBrainz scrobbler submission pipeline
(`src/src/scrobbler/listenbrainzscrobbler.cpp`).

The stateful C++ methods are embedded as pure Lean functions: the durable
queue becomes a `List CacheItem`, each method a function from its inputs and
the relevant state fields to the new state plus the externally visible
effects (batch issued, timer armed, records enqueued, signals emitted).
Machine integers (`int`, `qint64`) are modelled as `Int`; timer intervals are
stated in seconds (the source multiplies by `kMsecPerSec` when programming
the Qt timer).

The queue container itself (`ScrobblerCache` : `Add`, `List`, `Count`,
`Flush`, `SetError`, `ClearSent`) is implemented in `scrobblercache.cpp`,
which is not part of this excerpt; those operations are modelled from the
spec's section 4.1 contract and marked as such below.
-/

namespace LB

/-- CacheItem mirrors `ScrobblerCacheItem`: an entry of the durable queue.
The track metadata is irrelevant to the queue algorithms and is abstracted
by an identifier `id`, which also models the pointer identity
(`ScrobblerCacheItemPtr`) that `Flush` / `SetError` / `ClearSent` use to
address records. -/
structure CacheItem where
  id : Nat
  timestamp : Int
  sent : Bool
  error : Bool
deriving DecidableEq

/-- Constant `kScrobblesPerRequest` from the source (line 70). -/
def kScrobblesPerRequest : Nat := 10

/-- Marking a record as included in an outgoing batch (`cache_item->sent = true`). -/
def markSent (r : CacheItem) : CacheItem := { r with sent := true }

/-- Batch-assembly loop of `ListenBrainzScrobbler::Submit` (lines 549-559):
walk the queue in insertion order threading the accumulated batch size
`count`; `continue` on records already `sent`; break before an error record
once the batch is non-empty; otherwise mark the record sent, append it to
the batch, and break after it when the batch reached `kScrobblesPerRequest`
or the record itself was error-flagged. Returns (batch, updated queue). -/
def submitScan (count : Nat) : List CacheItem → List CacheItem × List CacheItem
  | [] => ([], [])
  | r :: rest =>
    if r.sent then
      ((submitScan count rest).1, r :: (submitScan count rest).2)
    else if r.error ∧ 0 < count then
      ([], r :: rest)
    else
      if kScrobblesPerRequest ≤ count + 1 ∨ r.error then
        ([markSent r], markSent r :: rest)
      else
        (markSent r :: (submitScan (count + 1) rest).1,
         markSent r :: (submitScan (count + 1) rest).2)

/-- Result of one `Submit()` call: the queue afterwards, the batch captured
by the request (`cache_items_sent`), whether a network request was issued,
and the `submitted_` flag afterwards. -/
structure SubmitResult where
  queue : List CacheItem
  batch : List CacheItem
  requestIssued : Bool
  submitted : Bool
deriving DecidableEq

/-- `ListenBrainzScrobbler::Submit` (lines 540-574): early return unless
enabled, authenticated and online; assemble the batch via the scan loop; if
the batch is empty return without side effects; otherwise set `submitted_`
and issue one request carrying the batch. -/
def submit (enabled authenticated offline submitted : Bool) (queue : List CacheItem) : SubmitResult :=
  if ¬enabled ∨ ¬authenticated ∨ offline then ⟨queue, [], false, submitted⟩
  else
    let scan := submitScan 0 queue
    if scan.1 = [] then ⟨scan.2, [], false, submitted⟩
    else ⟨scan.2, scan.1, true, true⟩

/-- Batch assembly as the specification words it, over the records not yet
marked sent: accumulate in order; stop when the batch reaches the fixed
maximum size; stop before the current record when it is error-flagged and
at least one record is already in the batch; an error-flagged record met
while the batch is empty forms the final (possibly one-record) batch. Used
to state the refinement in claim C2. -/
def specBatch (count : Nat) : List CacheItem → List CacheItem
  | [] => []
  | r :: rest =>
    if r.error ∧ 0 < count then []
    else if kScrobblesPerRequest ≤ count + 1 ∨ r.error then [r]
    else r :: specBatch (count + 1) rest

/-- Modelled from the spec: `ScrobblerCache::Flush(subset)` (section 4.1)
permanently removes the given records from the queue; the records are
addressed by identity (`id`). `scrobblercache.cpp` is not in this excerpt. -/
def flush (ids : List Nat) (q : List CacheItem) : List CacheItem :=
  q.filter (fun r => !decide (r.id ∈ ids))

/-- Modelled from the spec: `ScrobblerCache::SetError(subset)` (section 4.1)
marks the given records `error = true`. -/
def setError (ids : List Nat) (q : List CacheItem) : List CacheItem :=
  q.map (fun r => if r.id ∈ ids then { r with error := true } else r)

/-- Modelled from the spec: `ScrobblerCache::ClearSent(subset)` (section 4.1)
resets `sent = false` on the given records. -/
def clearSent (ids : List Nat) (q : List CacheItem) : List CacheItem :=
  q.map (fun r => if r.id ∈ ids then { r with sent := false } else r)

/-- ReplyResult mirrors `ListenBrainzScrobbler::ReplyResult`. -/
inductive ReplyResult where
  | success
  | apiError
  | serverError
deriving DecidableEq

/-- Queue and error-flag outcome of one submission response. -/
structure FinishResult where
  queue : List CacheItem
  submitError : Bool
deriving DecidableEq

/-- Queue reconciliation of `ListenBrainzScrobbler::ScrobbleRequestFinished`
(lines 588-617): on success flush the batch and clear `submit_error_`; on
any failure set `submit_error_`; an API error with exactly one batch item
flushes it (terminal per-item rejection); an API error with a multi-item
batch marks the batch error-flagged and clears its sent flags; any other
(transport/server) error only clears the sent flags. -/
def scrobbleRequestFinished (result : ReplyResult) (batch : List CacheItem) (q : List CacheItem) : FinishResult :=
  match result with
  | .success => ⟨flush (batch.map (·.id)) q, false⟩
  | .apiError =>
    if batch.length = 1 then ⟨flush (batch.map (·.id)) q, true⟩
    else ⟨clearSent (batch.map (·.id)) (setError (batch.map (·.id)) q), true⟩
  | .serverError => ⟨clearSent (batch.map (·.id)) q, true⟩

/-- Externally visible effect of one `StartSubmit` call: whether `Submit()`
was invoked synchronously, whether an active submit timer was stopped, and
the interval (in seconds) a one-shot timer was armed with, if any. -/
structure StartSubmitEffect where
  submitCalled : Bool
  timerStopped : Bool
  timerArmed : Option Int
deriving DecidableEq

/-- `ListenBrainzScrobbler::StartSubmit` (lines 522-538): do nothing while a
submission is in flight or the queue is empty; on the initial trigger with a
non-positive configured delay and no previous submit error, stop any active
timer and call `Submit()` directly; otherwise, if the one-shot submit timer
is not already active, arm it for `max(submit_delay, submit_error_ ? 30 : 5)`
seconds (the source converts to milliseconds via `kMsecPerSec`). -/
def startSubmit (initial submitted : Bool) (cacheCount : Nat) (timerActive : Bool)
    (submitDelay : Int) (submitError : Bool) : StartSubmitEffect :=
  if ¬submitted ∧ 0 < cacheCount then
    if initial ∧ submitDelay ≤ 0 ∧ ¬submitError then
      { submitCalled := true, timerStopped := timerActive, timerArmed := none }
    else if ¬timerActive then
      { submitCalled := false, timerStopped := false,
        timerArmed := some (max submitDelay (if submitError then 30 else 5)) }
    else
      { submitCalled := false, timerStopped := false, timerArmed := none }
  else
    { submitCalled := false, timerStopped := false, timerArmed := none }

/-- Session mirrors the in-memory session fields of the scrobbler:
`access_token_`, `expires_in_`, `token_type_`, `refresh_token_`,
`login_time_`. -/
structure Session where
  accessToken : String
  expiresIn : Int
  tokenType : String
  refreshToken : String
  loginTime : Int
deriving DecidableEq

/-- SettingsStore models the persistent settings group "ListenBrainz" as a
key/value record (spec section 6 contract for the settings collaborator):
`none` means the key is absent. -/
structure SettingsStore where
  accessToken : Option String
  expiresIn : Option Int
  tokenType : Option String
  refreshToken : Option String
  loginTime : Option Int
deriving DecidableEq

/-- QNetworkReply::NoError. -/
def NoError : Int := 0

/-- QNetworkReply::ContentAccessDenied. -/
def ContentAccessDenied : Int := 201

/-- QNetworkReply::ContentOperationNotPermittedError. -/
def ContentOperationNotPermittedError : Int := 202

/-- QNetworkReply::AuthenticationRequiredError. -/
def AuthenticationRequiredError : Int := 204

/-- Reply models the parts of a finished `QNetworkReply` that
`GetJsonObject` inspects: the transport error code, the HTTP status, and
whether the body is a non-empty valid JSON object carrying the two error
shapes the source looks for. -/
structure Reply where
  netError : Int
  httpStatus : Int
  bodyNonEmpty : Bool
  jsonValid : Bool
  hasErrorAndDescription : Bool
  hasCodeAndError : Bool
deriving DecidableEq

/-- `ListenBrainzScrobbler::Logout` (lines 149-165): clear the in-memory
session fields (strings emptied, `expires_in_ = -1`, `login_time_ = 0`) and
remove the persisted keys `access_token`, `expires_in`, `token_type` and
`refresh_token`. The persisted `login_time` key is not removed. -/
def logout (st : SettingsStore) : Session × SettingsStore :=
  (⟨"", -1, "", "", 0⟩,
   { st with accessToken := none, expiresIn := none, tokenType := none, refreshToken := none })

/-- Classification performed by `ListenBrainzScrobbler::GetJsonObject`
(lines 232-268): success only on no transport error with HTTP 200; a body
carrying `error`+`error_description` or `code`+`error` (inspected when the
transport error is `NoError` or a content error, code 200 and above)
reclassifies the reply as an API error; everything else is a server error. -/
def getJsonReplyResult (r : Reply) : ReplyResult :=
  let base : ReplyResult :=
    if r.netError = NoError then
      (if r.httpStatus = 200 then .success else .serverError)
    else .serverError
  if (r.netError = NoError ∨ 200 ≤ r.netError) ∧ r.bodyNonEmpty ∧ r.jsonValid ∧
     (r.hasErrorAndDescription ∨ r.hasCodeAndError) then .apiError
  else base

/-- Side condition in `GetJsonObject` (line 261): inside the content-error
branch, a transport error of `ContentAccessDenied`,
`ContentOperationNotPermittedError` or `AuthenticationRequiredError`
triggers `Logout()` ("session is probably expired"). -/
def getJsonDoesLogout (r : Reply) : Bool :=
  if (r.netError = NoError ∨ 200 ≤ r.netError) ∧
     (r.netError = ContentAccessDenied ∨ r.netError = ContentOperationNotPermittedError ∨
      r.netError = AuthenticationRequiredError) then true
  else false

/-- Session/store effect of running any reply through `GetJsonObject`: all
four reply handlers (submission, now-playing, token exchange, love) funnel
their replies through this shared decoder. -/
def getJsonSessionEffect (r : Reply) (s : Session) (st : SettingsStore) : Session × SettingsStore :=
  if getJsonDoesLogout r then logout st else (s, st)

/-- TokenBody models the fields `AuthenticateReplyFinished` reads from a
successfully decoded token-endpoint JSON reply; `none` means the key is
missing. -/
structure TokenBody where
  accessToken : Option String
  expiresIn : Option Int
  tokenType : Option String
  refreshToken : Option String
deriving DecidableEq

/-- Outcome signal of the authentication flow: `AuthenticationComplete`
emitted with failure (plus a human-readable reason, not modelled) or with
success. -/
inductive AuthOutcome where
  | authFailure
  | authSuccess
deriving DecidableEq

/-- `ListenBrainzScrobbler::AuthenticateReplyFinished` (lines 308-355):
decode the token-endpoint reply through `GetJsonObject` (which may run
`Logout` on auth-denied transport errors); on a non-success result signal
failure; on a success result missing `access_token`, `expires_in` or
`token_type` signal failure; otherwise install the new session in memory
(keeping the previous refresh token when the reply carries none), stamp
`login_time_ = now`, persist all five fields, and arm the refresh timer for
`expires_in` seconds when positive. The trailing Bool is whether the
refresh timer was armed. -/
def authenticateReplyFinished (r : Reply) (body : TokenBody) (s : Session)
    (st : SettingsStore) (now : Int) : AuthOutcome × Session × SettingsStore × Bool :=
  let eff := getJsonSessionEffect r s st
  if ¬getJsonReplyResult r = .success then (.authFailure, eff.1, eff.2, false)
  else
    match body.accessToken, body.expiresIn, body.tokenType with
    | some tok, some ei, some tt =>
      let rt := body.refreshToken.getD eff.1.refreshToken
      (.authSuccess, ⟨tok, ei, tt, rt, now⟩,
       ⟨some tok, some ei, some tt, some rt, some now⟩, 0 < ei)
    | _, _, _ => (.authFailure, eff.1, eff.2, false)

/-- RedirectInput models what `RedirectArrived` inspects: the local redirect
server's error string (empty when no error), validity of the captured
request URL, and the presence of the `error` / `code` query items. -/
structure RedirectInput where
  serverErrorMsg : String
  urlValid : Bool
  hasErrorParam : Bool
  hasCodeParam : Bool
  codeValue : String
deriving DecidableEq

/-- Action taken by `RedirectArrived` on the OAuth redirect. -/
inductive RedirectAction where
  | authErrorSignal
  | requestAccessToken (code : String)
deriving DecidableEq

/-- `ListenBrainzScrobbler::RedirectArrived` (lines 200-230): a server
error, an invalid URL, an `error` query item, or a missing `code` query
item each signal an authentication error; only a present `code` proceeds to
the token exchange. -/
def redirectArrived (i : RedirectInput) : RedirectAction :=
  if i.serverErrorMsg = "" then
    if i.urlValid then
      if i.hasErrorParam then .authErrorSignal
      else if i.hasCodeParam then .requestAccessToken i.codeValue
      else .authErrorSignal
    else .authErrorSignal
  else .authErrorSignal

/-- `ListenBrainzScrobbler::LoadSession` (lines 129-147): restore the five
session fields from the persistent store (defaults: empty strings,
`expires_in = -1`, `login_time = 0`); when the restored refresh token is
non-empty, arm the refresh timer for
`expires_in - (now - login_time)` seconds, floored at 6. Returns the
restored session and the armed interval in seconds, if any. -/
def loadSession (st : SettingsStore) (now : Int) : Session × Option Int :=
  let s : Session := ⟨st.accessToken.getD "", st.expiresIn.getD (-1), st.tokenType.getD "",
                      st.refreshToken.getD "", st.loginTime.getD 0⟩
  if ¬s.refreshToken = "" then
    (s, some (let time := s.expiresIn - (now - s.loginTime); if time < 6 then 6 else time))
  else (s, none)

/-- Song models the parts of `Song` (declared in `core/song.h`, outside this
excerpt) that the tracking logic reads: its database id, its URL (abstracted
to an identifier for equality tests), `is_metadata_good()`, `is_radio()`
and `length_nanosec()`. -/
structure Song where
  id : Int
  urlId : Nat
  metadataGood : Bool
  isRadio : Bool
  lengthNanosec : Int
deriving DecidableEq

/-- Modelled from the spec: a default-constructed `Song()` (used by
`ClearPlaying` to reset tracking) carries no usable metadata; the exact
field defaults live in `core/song.h`, outside this excerpt. -/
def emptySong : Song := ⟨-1, 0, false, false, 0⟩

/-- PlayState groups the tracking fields `song_playing_`, `scrobbled_` and
`timestamp_`. -/
structure PlayState where
  songPlaying : Song
  scrobbled : Bool
  timestamp : Int
deriving DecidableEq

/-- QueueAdd records one `cache_->Add(song, timestamp)` call. Modelled from
the spec: section 4.1's `Add` appends a new unsent record built from the
song and the timestamp. -/
structure QueueAdd where
  song : Song
  timestamp : Int
deriving DecidableEq

/-- Constant `kNsecPerSec` from `utilities/timeconstants.h`. -/
def kNsecPerSec : Int := 1000000000

/-- `ListenBrainzScrobbler::Scrobble` (lines 508-520): reject the song
unless it matches the currently tracked song by id and URL and has good
metadata; otherwise set `scrobbled_` and enqueue the song with the tracked
timestamp. (The follow-up `StartSubmit` trigger when online and
authenticated is modelled separately by `startSubmit`.) Returns the new
tracking state and the enqueued record, if any. -/
def scrobble (st : PlayState) (song : Song) : PlayState × Option QueueAdd :=
  if ¬song.id = st.songPlaying.id ∨ ¬song.urlId = st.songPlaying.urlId ∨ ¬song.metadataGood then
    (st, none)
  else
    ({ st with scrobbled := true }, some ⟨song, st.timestamp⟩)

/-- `ListenBrainzScrobbler::CheckScrobblePrevSong` (lines 684-695):
`duration = now - timestamp_`, floored at 0; when the tracked song was not
explicitly scrobbled, has good metadata, is a radio stream, and the
duration exceeds 30 seconds, scrobble a copy of it whose length is the
duration in nanoseconds. -/
def checkScrobblePrevSong (st : PlayState) (now : Int) : PlayState × Option QueueAdd :=
  let d := now - st.timestamp
  let duration := if d < 0 then 0 else d
  if ¬st.scrobbled ∧ st.songPlaying.metadataGood ∧ st.songPlaying.isRadio ∧ 30 < duration then
    scrobble st { st.songPlaying with lengthNanosec := duration * kNsecPerSec }
  else (st, none)

/-- `ListenBrainzScrobbler::UpdateNowPlaying` (lines 448-471, tracking
part): evaluate the previous song for a derived scrobble, then replace the
tracked song, reset `scrobbled_` and stamp the current time. (The
"playing_now" network notification does not touch the tracked state.) -/
def updateNowPlaying (st : PlayState) (song : Song) (now : Int) : PlayState × Option QueueAdd :=
  (⟨song, false, now⟩, (checkScrobblePrevSong st now).2)

/-- `ListenBrainzScrobbler::ClearPlaying` (lines 499-506): evaluate the
previous song for a derived scrobble, then reset the tracked state. -/
def clearPlaying (st : PlayState) (now : Int) : PlayState × Option QueueAdd :=
  (⟨emptySong, false, 0⟩, (checkScrobblePrevSong st now).2)

/-- Iterated evaluations of the tracked song (the evaluation phase of any
sequence of `UpdateNowPlaying` / `ClearPlaying` calls acting on the same
tracked item), collecting the derived-scrobble enqueues. -/
def checkRuns (st : PlayState) : List Int → List QueueAdd
  | [] => []
  | now :: rest =>
    match checkScrobblePrevSong st now with
    | (st1, some a) => a :: checkRuns st1 rest
    | (st1, none) => checkRuns st1 rest

/-- Concrete queue of eleven unsent, non-error records, used as a concrete
input below. -/
def qElevenUnsent : List CacheItem := (List.range 11).map (fun i => ⟨i, 0, false, false⟩)

theorem submitScan_batch_mem (count : Nat) (q : List CacheItem) (x : CacheItem)
    (hx : x ∈ (submitScan count q).1) :
    ∃ r, r ∈ q ∧ r.sent = false ∧ x = markSent r := by
  induction q generalizing count with
  | nil => simp [submitScan] at hx
  | cons r rest ih =>
    by_cases hs : r.sent = true
    · rw [submitScan, if_pos hs] at hx
      obtain ⟨y, hy, hsent, hmk⟩ := ih _ hx
      exact ⟨y, List.mem_cons_of_mem _ hy, hsent, hmk⟩
    · rw [submitScan, if_neg hs] at hx
      by_cases he : r.error = true ∧ 0 < count
      · rw [if_pos he] at hx
        simp at hx
      · rw [if_neg he] at hx
        by_cases hb : kScrobblesPerRequest ≤ count + 1 ∨ r.error = true
        · rw [if_pos hb] at hx
          simp only [List.mem_singleton] at hx
          exact ⟨r, List.mem_cons_self _ _, by simpa using hs, hx⟩
        · rw [if_neg hb] at hx
          rcases List.mem_cons.mp hx with h | h
          · exact ⟨r, List.mem_cons_self _ _, by simpa using hs, h⟩
          · obtain ⟨y, hy, hsent, hmk⟩ := ih _ h
            exact ⟨y, List.mem_cons_of_mem _ hy, hsent, hmk⟩

theorem submitScan_all_sent (count : Nat) (q : List CacheItem)
    (h : ∀ r ∈ q, r.sent = true) : submitScan count q = ([], q) := by
  induction q generalizing count with
  | nil => simp [submitScan]
  | cons r rest ih =>
    have hr : r.sent = true := h r (List.mem_cons_self _ _)
    have hrest : ∀ x ∈ rest, x.sent = true := fun x hx => h x (List.mem_cons_of_mem _ hx)
    rw [submitScan, if_pos hr, ih count hrest]

theorem submitScan_zero_batch_nil_iff (q : List CacheItem) :
    (submitScan 0 q).1 = [] ↔ ∀ r ∈ q, r.sent = true := by
  induction q with
  | nil => simp [submitScan]
  | cons r rest ih =>
    by_cases hs : r.sent = true
    · rw [submitScan, if_pos hs]
      simp only [List.mem_cons]
      constructor
      · intro h x hx
        rcases hx with hx | hx
        · exact hx ▸ hs
        · exact (ih.mp h) x hx
      · intro h
        exact ih.mpr (fun x hx => h x (Or.inr hx))
    · rw [submitScan, if_neg hs, if_neg (by simp)]
      by_cases hb : kScrobblesPerRequest ≤ 0 + 1 ∨ r.error = true
      · rw [if_pos hb]
        simp only [List.cons_ne_nil, false_iff]
        intro h
        exact hs (h r (List.mem_cons_self _ _))
      · rw [if_neg hb]
        simp only [List.cons_ne_nil, false_iff]
        intro h
        exact hs (h r (List.mem_cons_self _ _))

theorem specBatch_cons (count : Nat) (r : CacheItem) (rest : List CacheItem) :
    specBatch count (r :: rest)
      = if r.error = true ∧ 0 < count then []
        else if kScrobblesPerRequest ≤ count + 1 ∨ r.error = true then [r]
        else r :: specBatch (count + 1) rest := rfl

theorem submitScan_batch_spec (count : Nat) (q : List CacheItem) :
    (submitScan count q).1 = (specBatch count (q.filter fun r => !r.sent)).map markSent := by
  induction q generalizing count with
  | nil => simp [submitScan, specBatch]
  | cons r rest ih =>
    by_cases hs : r.sent = true
    · have hfil : (r :: rest).filter (fun x => !x.sent) = rest.filter (fun x => !x.sent) := by
        simp [List.filter_cons, hs]
      rw [submitScan, if_pos hs, hfil]
      exact ih count
    · have hsf : r.sent = false := by simpa using hs
      have hfil : (r :: rest).filter (fun x => !x.sent)
          = r :: rest.filter (fun x => !x.sent) := by
        simp [List.filter_cons, hsf]
      rw [submitScan, if_neg hs, hfil, specBatch_cons]
      by_cases he : r.error = true ∧ 0 < count
      · rw [if_pos he, if_pos he]
        simp
      · rw [if_neg he, if_neg he]
        by_cases hb : kScrobblesPerRequest ≤ count + 1 ∨ r.error = true
        · rw [if_pos hb, if_pos hb]
          simp
        · rw [if_neg hb, if_neg hb, ih (count + 1)]
          simp

theorem specBatch_no_error (q : List CacheItem) (count : Nat)
    (herr : ∀ r ∈ q, r.error = false) (hcount : count < kScrobblesPerRequest)
    (hlen : kScrobblesPerRequest - count ≤ q.length) :
    specBatch count q = q.take (kScrobblesPerRequest - count) := by
  induction q generalizing count with
  | nil =>
    simp only [List.length_nil, Nat.le_zero] at hlen
    omega
  | cons r rest ih =>
    have hr : r.error = false := herr r (List.mem_cons_self _ _)
    have hrest : ∀ x ∈ rest, x.error = false := fun x hx => herr x (List.mem_cons_of_mem _ hx)
    rw [specBatch_cons, if_neg (by simp [hr])]
    by_cases hb : kScrobblesPerRequest ≤ count + 1
    · have h1 : kScrobblesPerRequest - count = 1 := by
        omega
      rw [if_pos (Or.inl hb), h1]
      simp
    · rw [if_neg (by simp [hr, hb])]
      have hc1 : count + 1 < kScrobblesPerRequest := by omega
      have hl1 : kScrobblesPerRequest - (count + 1) ≤ rest.length := by
        simp only [List.length_cons] at hlen
        omega
      rw [ih (count + 1) hrest hc1 hl1]
      have h2 : kScrobblesPerRequest - count = (kScrobblesPerRequest - (count + 1)) + 1 := by
        omega
      rw [h2, List.take_succ_cons]

theorem submit_batch_eq (submitted : Bool) (q : List CacheItem) :
    (submit true true false submitted q).batch = (submitScan 0 q).1 := by
  rw [submit, if_neg (by simp)]
  by_cases h : (submitScan 0 q).1 = []
  · simp [h]
  · simp [h]

/-- C1 (amended): calling `Submit()` while a previous submission batch is in
flight never re-batches a record of that batch — the assembled batch draws
only on records whose `sent` flag is still false; the batch is empty (and
the call a no-op: queue unchanged, no record marked sent, no request
issued, `submitted_` untouched) exactly when every record in the queue is
marked `sent`, in particular when the in-flight batch covered the whole
queue and nothing was enqueued since. -/
theorem submit_skips_inflight_records (submitted : Bool) (q : List CacheItem) :
    (∀ x ∈ (submit true true false submitted q).batch,
        ∃ r, r ∈ q ∧ r.sent = false ∧ x = markSent r)
    ∧ ((submit true true false submitted q).batch = [] ↔ ∀ r ∈ q, r.sent = true)
    ∧ ((∀ r ∈ q, r.sent = true) →
        submit true true false submitted q = ⟨q, [], false, submitted⟩) := by
  refine ⟨?_, ?_, ?_⟩
  · intro x hx
    rw [submit_batch_eq] at hx
    exact submitScan_batch_mem 0 q x hx
  · rw [submit_batch_eq]
    exact submitScan_zero_batch_nil_iff q
  · intro h
    rw [submit, if_neg (by simp), submitScan_all_sent 0 q h]
    simp

/-- C1 witness: a queue whose single record is already `sent` makes
`Submit()` a complete no-op. -/
theorem submit_skips_inflight_records_witness :
    submit true true false true [⟨0, 5, true, false⟩]
      = ⟨[⟨0, 5, true, false⟩], [], false, true⟩ :=
  (submit_skips_inflight_records true [⟨0, 5, true, false⟩]).2.2 (by decide)

/-- C1 counterexample: the claim "calling `Submit()` while a previous
submission batch is in flight assembles an empty batch and is a no-op, for
every queue state" is false. With eleven unsent records, the first
`Submit()` puts a ten-record batch in flight; calling `Submit()` again in
that state assembles a non-empty batch (the eleventh record), issues a
request and changes the queue. -/
theorem submit_inflight_not_noop_cex :
    (submit true true false false qElevenUnsent).submitted = true ∧
    (submit true true false false qElevenUnsent).batch.length = 10 ∧
    ¬(submit true true false (submit true true false false qElevenUnsent).submitted
        (submit true true false false qElevenUnsent).queue).batch = [] ∧
    (submit true true false (submit true true false false qElevenUnsent).submitted
        (submit true true false false qElevenUnsent).queue).requestIssued = true ∧
    ¬(submit true true false (submit true true false false qElevenUnsent).submitted
        (submit true true false false qElevenUnsent).queue).queue
      = (submit true true false false qElevenUnsent).queue := by decide

/-- C2: `Submit()` assembles its batch by scanning the queue in insertion
order, skipping records already marked `sent`, and stopping exactly at the
fixed batch size (10), before an error-flagged record once the batch is
non-empty, or after a first eligible record that is itself error-flagged
(`specBatch` renders these stop rules word for word). In particular eleven
or more unsent non-error records yield a first batch of exactly the first
ten, and a queue [A(ok), B(ok), C(error)] yields the batch [A, B]. -/
theorem submit_batch_assembly :
    (∀ q : List CacheItem,
        (submit true true false false q).batch
          = (specBatch 0 (q.filter fun r => !r.sent)).map markSent)
    ∧ (∀ q : List CacheItem, (∀ r ∈ q, r.sent = false ∧ r.error = false) →
        11 ≤ q.length →
        (submit true true false false q).batch = (q.take 10).map markSent)
    ∧ (∀ A B C : CacheItem, A.sent = false → A.error = false → B.sent = false →
        B.error = false → C.sent = false → C.error = true →
        (submit true true false false [A, B, C]).batch = [markSent A, markSent B]) := by
  refine ⟨?_, ?_, ?_⟩
  · intro q
    rw [submit_batch_eq]
    exact submitScan_batch_spec 0 q
  · intro q h hlen
    rw [submit_batch_eq, submitScan_batch_spec 0 q]
    have hfilter : q.filter (fun r => !r.sent) = q := by
      rw [List.filter_eq_self]
      intro r hr
      simp [(h r hr).1]
    rw [hfilter, specBatch_no_error q 0 (fun r hr => (h r hr).2) (by decide)
        (by simp only [kScrobblesPerRequest]; omega)]
    rfl
  · intro A B C hA1 hA2 hB1 hB2 hC1 hC2
    rw [submit_batch_eq, submitScan_batch_spec 0 [A, B, C]]
    have hfil : List.filter (fun r => !r.sent) [A, B, C] = [A, B, C] := by
      rw [List.filter_eq_self]
      intro r hr
      simp only [List.mem_cons, List.not_mem_nil, or_false] at hr
      rcases hr with h | h | h <;> subst h <;> simp [hA1, hB1, hC1]
    rw [hfil]
    rw [specBatch_cons, if_neg (by simp [hA2]),
        if_neg (not_or.mpr ⟨by decide, by simp [hA2]⟩)]
    rw [specBatch_cons, if_neg (by simp [hB2]),
        if_neg (not_or.mpr ⟨by decide, by simp [hB2]⟩)]
    rw [specBatch_cons, if_pos ⟨hC2, by decide⟩]
    simp

/-- C2 witness: the batch-cap and error-isolation instances at concrete
queues. -/
theorem submit_batch_assembly_witness :
    (submit true true false false qElevenUnsent).batch = (qElevenUnsent.take 10).map markSent ∧
    (submit true true false false [⟨0, 0, false, false⟩, ⟨1, 0, false, false⟩, ⟨2, 0, false, true⟩]).batch
      = [markSent ⟨0, 0, false, false⟩, markSent ⟨1, 0, false, false⟩] :=
  ⟨submit_batch_assembly.2.1 qElevenUnsent (by decide) (by decide),
   submit_batch_assembly.2.2 ⟨0, 0, false, false⟩ ⟨1, 0, false, false⟩ ⟨2, 0, false, true⟩
     rfl rfl rfl rfl rfl rfl⟩

theorem flush_id_not_mem (ids : List Nat) (q : List CacheItem) (n : Nat) (h : n ∈ ids) :
    ¬n ∈ (flush ids q).map (·.id) := by
  intro hmem
  obtain ⟨x, hx, hid⟩ := List.mem_map.mp hmem
  have hx2 := (List.mem_filter.mp hx).2
  simp only [Bool.not_eq_true', decide_eq_false_iff_not] at hx2
  exact hx2 (hid ▸ h)

theorem flush_keep (ids : List Nat) (q : List CacheItem) (r : CacheItem)
    (hr : r ∈ q) (h : ¬r.id ∈ ids) : r ∈ flush ids q :=
  List.mem_filter.mpr ⟨hr, by simp [h]⟩

theorem clearSent_setError_eq (ids : List Nat) (q : List CacheItem) :
    clearSent ids (setError ids q)
      = q.map (fun r => if r.id ∈ ids then { r with error := true, sent := false } else r) := by
  rw [clearSent, setError, List.map_map]
  congr 1
  funext r
  by_cases h : r.id ∈ ids <;> simp [Function.comp, h]

theorem map_update_id_mem (f : CacheItem → CacheItem) (hf : ∀ r, (f r).id = r.id)
    (q : List CacheItem) (r : CacheItem) (hr : r ∈ q) : r.id ∈ (q.map f).map (·.id) :=
  List.mem_map.mpr ⟨f r, List.mem_map_of_mem f hr, hf r⟩

/-- C3: for every submission response, a batch record is removed from the
queue exactly when the response was a success or an API-level error on a
one-record batch; an API error on a multi-record batch leaves every batch
record in the queue marked `error = true`, `sent = false`; a
transport/server error rewrites the queue by only resetting the batch
records' `sent` flags (error flags unchanged); and records outside the
batch are never touched — no failure path drops a record. -/
theorem scrobble_response_reconciliation (result : ReplyResult)
    (batch q : List CacheItem) :
    (∀ r ∈ q, r.id ∈ batch.map (·.id) →
        (r.id ∈ (scrobbleRequestFinished result batch q).queue.map (·.id)
          ↔ ¬(result = .success ∨ (result = .apiError ∧ batch.length = 1))))
    ∧ (result = .apiError → ¬batch.length = 1 →
        ∀ x ∈ (scrobbleRequestFinished result batch q).queue,
          x.id ∈ batch.map (·.id) → x.error = true ∧ x.sent = false)
    ∧ (result = .serverError →
        (scrobbleRequestFinished result batch q).queue
          = q.map (fun r => if r.id ∈ batch.map (·.id) then { r with sent := false } else r))
    ∧ (∀ r ∈ q, ¬r.id ∈ batch.map (·.id) →
        r ∈ (scrobbleRequestFinished result batch q).queue) := by
  refine ⟨?_, ?_, ?_, ?_⟩
  · intro r hr hid
    cases result with
    | success =>
      exact iff_of_false (flush_id_not_mem _ q _ hid) (by simp)
    | apiError =>
      by_cases hlen : batch.length = 1
      · simp only [scrobbleRequestFinished, if_pos hlen]
        exact iff_of_false (flush_id_not_mem _ q _ hid) (by simp [hlen])
      · simp only [scrobbleRequestFinished, if_neg hlen]
        refine iff_of_true ?_ (by simp [hlen])
        rw [clearSent_setError_eq]
        exact map_update_id_mem _ (by intro x; by_cases h : x.id ∈ batch.map (·.id) <;> simp [h])
          q r hr
    | serverError =>
      refine iff_of_true ?_ (by simp)
      show r.id ∈ (clearSent (batch.map (·.id)) q).map (·.id)
      rw [clearSent]
      exact map_update_id_mem _ (by intro x; by_cases h : x.id ∈ batch.map (·.id) <;> simp [h])
        q r hr
  · intro hres hlen x hx hxid
    subst hres
    simp only [scrobbleRequestFinished, if_neg hlen] at hx
    rw [clearSent_setError_eq] at hx
    obtain ⟨r, hr, hfx⟩ := List.mem_map.mp hx
    subst hfx
    by_cases h : r.id ∈ batch.map (·.id)
    · simp [h]
    · simp only [if_neg h] at hxid
      exact absurd hxid h
  · intro hres
    subst hres
    rfl
  · intro r hr hid
    cases result with
    | success => exact flush_keep _ q r hr hid
    | apiError =>
      by_cases hlen : batch.length = 1
      · simp only [scrobbleRequestFinished, if_pos hlen]
        exact flush_keep _ q r hr hid
      · simp only [scrobbleRequestFinished, if_neg hlen]
        rw [clearSent_setError_eq]
        have hfr : (fun x => if x.id ∈ batch.map (·.id) then { x with error := true, sent := false }
            else x) r = r := by simp [hid]
        exact hfr ▸ List.mem_map_of_mem _ hr
    | serverError =>
      show r ∈ clearSent (batch.map (·.id)) q
      rw [clearSent]
      have hfr : (fun x => if x.id ∈ batch.map (·.id) then { x with sent := false } else x) r
          = r := by simp [hid]
      exact hfr ▸ List.mem_map_of_mem _ hr

/-- C3 witness: a server error on a one-record batch returns the record to
the retryable state and leaves the other queue record untouched. -/
theorem scrobble_response_reconciliation_witness :
    (scrobbleRequestFinished .serverError [⟨1, 0, true, false⟩]
        [⟨1, 0, true, false⟩, ⟨2, 0, false, false⟩]).queue
      = [⟨1, 0, false, false⟩, ⟨2, 0, false, false⟩] := by
  rw [(scrobble_response_reconciliation .serverError [⟨1, 0, true, false⟩]
        [⟨1, 0, true, false⟩, ⟨2, 0, false, false⟩]).2.2.1 rfl]
  decide

/-- C10: every non-success submission response (API-level rejections of
single-item and multi-item batches included) sets the last-submit-errored
flag, a success clears it, and with the flag set the next scheduled retry
arms the timer at `max(configured_delay, 30)`, at least the 30-second
floor. -/
theorem submit_error_flag_on_failure :
    (∀ (result : ReplyResult) (batch q : List CacheItem),
        (scrobbleRequestFinished result batch q).submitError = decide (¬result = .success))
    ∧ (∀ (initial : Bool) (cacheCount : Nat) (submitDelay : Int), 0 < cacheCount →
        startSubmit initial false cacheCount false submitDelay true
          = ⟨false, false, some (max submitDelay 30)⟩ ∧ (30 : Int) ≤ max submitDelay 30) := by
  constructor
  · intro result batch q
    cases result with
    | success => rfl
    | apiError => by_cases h : batch.length = 1 <;> simp [scrobbleRequestFinished, h]
    | serverError => rfl
  · intro initial cacheCount submitDelay hc
    constructor
    · rw [startSubmit, if_pos ⟨by simp, hc⟩, if_neg (by simp), if_pos (by simp)]
      simp
    · exact le_max_right _ _

/-- C10 witness: after a failed submission (flag set), a retry with
configured delay 0 arms the timer at the 30-second floor. -/
theorem submit_error_flag_on_failure_witness :
    startSubmit true false 1 false 0 true = ⟨false, false, some 30⟩ := by
  rw [(submit_error_flag_on_failure.2 true 1 0 (by decide)).1]
  have h : max (0 : Int) 30 = 30 := max_eq_right (by norm_num)
  simp [h]

/-- C4: when `StartSubmit` runs with no submission in flight and a
non-empty queue, the non-immediate path (not initial, or positive delay,
or previous error) arms the one-shot timer for
`max(configured_delay, 30 or 5)` seconds only when no timer is armed,
leaving an armed timer untouched; the immediate path (initial trigger,
delay at most 0, no previous error) stops any pending timer and calls
`Submit()` directly. -/
theorem start_submit_scheduling (initial timerActive submitError : Bool)
    (cacheCount : Nat) (submitDelay : Int) (hq : 0 < cacheCount) :
    (¬(initial = true ∧ submitDelay ≤ 0 ∧ submitError = false) →
        startSubmit initial false cacheCount timerActive submitDelay submitError
          = if timerActive = true then ⟨false, false, none⟩
            else ⟨false, false, some (max submitDelay (if submitError = true then 30 else 5))⟩)
    ∧ ((initial = true ∧ submitDelay ≤ 0 ∧ submitError = false) →
        startSubmit initial false cacheCount timerActive submitDelay submitError
          = ⟨true, timerActive, none⟩) := by
  constructor
  · intro h
    have h' : ¬(initial = true ∧ submitDelay ≤ 0 ∧ ¬submitError = true) := by
      intro hk
      exact h ⟨hk.1, hk.2.1, by simpa using hk.2.2⟩
    rw [startSubmit, if_pos ⟨by simp, hq⟩, if_neg h']
    cases timerActive
    · rw [if_pos (by simp)]
      simp
    · rw [if_neg (by simp)]
      simp
  · intro h
    rw [startSubmit, if_pos ⟨by simp, hq⟩, if_pos ⟨h.1, h.2.1, by simp [h.2.2]⟩]

/-- C4 witness: a non-initial run with delay 2 after an error arms the
timer at 30 seconds; an initial run with delay 0 and no error stops the
pending timer and submits immediately. -/
theorem start_submit_scheduling_witness :
    startSubmit false false 3 false 2 true = ⟨false, false, some 30⟩ ∧
    startSubmit true false 3 true 0 false = ⟨true, true, none⟩ := by
  constructor
  · rw [(start_submit_scheduling false false true 3 2 (by decide)).1 (by simp)]
    have h : max (2 : Int) 30 = 30 := max_eq_right (by norm_num)
    simp [h]
  · exact (start_submit_scheduling true true false 3 0 (by decide)).2 ⟨rfl, by norm_num, rfl⟩

/-- C5 counterexample: the claim that an authentication-required response
clears all session fields "both in memory and in the persistent store
(... and the login time)" is false for the persistent store. A reply with
transport error `AuthenticationRequiredError` (204) does run `Logout()`,
but the persisted `login_time` key survives it. -/
theorem logout_keeps_persisted_login_time_cex :
    getJsonDoesLogout ⟨204, 401, false, false, false, false⟩ = true ∧
    (getJsonSessionEffect ⟨204, 401, false, false, false, false⟩
        ⟨"a", 3600, "b", "r", 99⟩
        ⟨some "a", some 3600, some "b", some "r", some 99⟩).2.loginTime = some 99 ∧
    ¬(getJsonSessionEffect ⟨204, 401, false, false, false, false⟩
        ⟨"a", 3600, "b", "r", 99⟩
        ⟨some "a", some 3600, some "b", some "r", some 99⟩).2.loginTime = none := by
  refine ⟨rfl, rfl, by decide⟩

/-- C5 (amended): every reply whose transport status is access denied,
forbidden (content operation not permitted) or authentication required —
processed through `GetJsonObject`, which all four reply handlers share —
runs `Logout()`, clearing every in-memory session field (access token,
token type, refresh token emptied; expiry set to -1; login time set to 0)
and removing the persisted access token, expiry, token type and refresh
token; the persisted login time is not removed. -/
theorem auth_error_logout_clears_session (r : Reply) (s : Session) (st : SettingsStore)
    (h : r.netError = ContentAccessDenied ∨ r.netError = ContentOperationNotPermittedError ∨
         r.netError = AuthenticationRequiredError) :
    getJsonDoesLogout r = true ∧
    getJsonSessionEffect r s st
      = (⟨"", -1, "", "", 0⟩,
         { st with accessToken := none, expiresIn := none, tokenType := none,
                   refreshToken := none }) := by
  have hb : getJsonDoesLogout r = true := by
    rcases h with h | h | h <;>
      simp [getJsonDoesLogout, h, ContentAccessDenied, ContentOperationNotPermittedError,
        AuthenticationRequiredError, NoError]
  exact ⟨hb, by simp [getJsonSessionEffect, hb, logout]⟩

/-- C5 witness: a forbidden (202) reply during any operation clears the
session as described. -/
theorem auth_error_logout_clears_session_witness :
    getJsonSessionEffect ⟨202, 403, false, false, false, false⟩
        ⟨"a", 3600, "b", "r", 99⟩ ⟨some "a", some 3600, some "b", some "r", some 99⟩
      = (⟨"", -1, "", "", 0⟩, ⟨none, none, none, none, some 99⟩) :=
  (auth_error_logout_clears_session ⟨202, 403, false, false, false, false⟩
    ⟨"a", 3600, "b", "r", 99⟩ ⟨some "a", some 3600, some "b", some "r", some 99⟩
    (Or.inr (Or.inl rfl))).2

/-- C6 counterexample: the claim that a failed token exchange never
modifies any stored session field is false. When the token endpoint itself
replies with transport error `AuthenticationRequiredError` (204), the
exchange fails (authentication-failure signal) and the stored session is
cleared by the `Logout()` inside the shared reply decoder. -/
theorem token_exchange_auth_error_clears_session_cex :
    (authenticateReplyFinished ⟨204, 401, false, false, false, false⟩ ⟨none, none, none, none⟩
        ⟨"tok", 3600, "b", "rt", 50⟩
        ⟨some "tok", some 3600, some "b", some "rt", some 50⟩ 100).1 = .authFailure ∧
    ¬(authenticateReplyFinished ⟨204, 401, false, false, false, false⟩ ⟨none, none, none, none⟩
        ⟨"tok", 3600, "b", "rt", 50⟩
        ⟨some "tok", some 3600, some "b", some "rt", some 50⟩ 100).2.1
      = (⟨"tok", 3600, "b", "rt", 50⟩ : Session) ∧
    ¬(authenticateReplyFinished ⟨204, 401, false, false, false, false⟩ ⟨none, none, none, none⟩
        ⟨"tok", 3600, "b", "rt", 50⟩
        ⟨some "tok", some 3600, some "b", some "rt", some 50⟩ 100).2.2.1
      = (⟨some "tok", some 3600, some "b", some "rt", some 50⟩ : SettingsStore) := by
  refine ⟨rfl, by decide, by decide⟩

/-- C6 (amended): every failed token exchange — an OAuth redirect carrying
an error, an invalid redirect URL, a missing code, or a token-endpoint
reply that is not a success or lacks a required field — only signals an
authentication failure; no stored session field, in memory or persisted,
is modified, except when the token-endpoint reply itself carries an
access-denied / forbidden / authentication-required transport status, in
which case the general session-invalidation rule (`Logout()` in the shared
reply decoder) clears the session. -/
theorem failed_exchange_no_session_change :
    (∀ (r : Reply) (body : TokenBody) (s : Session) (st : SettingsStore) (now : Int),
        getJsonDoesLogout r = false →
        (¬getJsonReplyResult r = .success ∨ body.accessToken = none ∨
         body.expiresIn = none ∨ body.tokenType = none) →
        authenticateReplyFinished r body s st now = (.authFailure, s, st, false))
    ∧ (∀ i : RedirectInput,
        (¬i.serverErrorMsg = "" ∨ i.urlValid = false ∨ i.hasErrorParam = true ∨
         i.hasCodeParam = false) →
        redirectArrived i = .authErrorSignal) := by
  constructor
  · intro r body s st now hlog hfail
    have heff : getJsonSessionEffect r s st = (s, st) := by
      simp [getJsonSessionEffect, hlog]
    by_cases hres : getJsonReplyResult r = .success
    · rcases body with ⟨ba, be, bt, br⟩
      cases ba <;> cases be <;> cases bt <;> simp_all [authenticateReplyFinished, heff]
    · simp [authenticateReplyFinished, heff, hres]
  · intro i h
    rcases i with ⟨msg, uv, ep, cp, cv⟩
    cases uv <;> cases ep <;> cases cp <;> by_cases hm : msg = "" <;>
      simp_all [redirectArrived]

/-- C6 witness: a token-endpoint reply with a plain connection error (code
1, not an auth-denied status) fails the exchange with no session change,
and a redirect missing the code query item only signals an error. -/
theorem failed_exchange_no_session_change_witness :
    authenticateReplyFinished ⟨1, 0, false, false, false, false⟩ ⟨none, none, none, none⟩
        ⟨"tok", 3600, "b", "rt", 50⟩
        ⟨some "tok", some 3600, some "b", some "rt", some 50⟩ 100
      = (.authFailure, ⟨"tok", 3600, "b", "rt", 50⟩,
         ⟨some "tok", some 3600, some "b", some "rt", some 50⟩, false) ∧
    redirectArrived ⟨"", true, false, false, ""⟩ = .authErrorSignal :=
  ⟨failed_exchange_no_session_change.1 ⟨1, 0, false, false, false, false⟩
      ⟨none, none, none, none⟩ ⟨"tok", 3600, "b", "rt", 50⟩
      ⟨some "tok", some 3600, some "b", some "rt", some 50⟩ 100 (by decide)
      (Or.inr (Or.inl rfl)),
   failed_exchange_no_session_change.2 ⟨"", true, false, false, ""⟩
      (Or.inr (Or.inr (Or.inr rfl)))⟩

/-- C7: restoring a session whose refresh token is non-empty arms the
refresh timer for `max(expires_in - (now - login_time), 6)` seconds, an
interval that is always at least 6 and hence never zero or negative. -/
theorem load_session_refresh_timer_floor (st : SettingsStore) (now : Int) (rt : String)
    (hrt : st.refreshToken = some rt) (hne : ¬rt = "") :
    (loadSession st now).2
      = some (max (st.expiresIn.getD (-1) - (now - st.loginTime.getD 0)) 6) ∧
    (∀ t : Int, (loadSession st now).2 = some t → 6 ≤ t ∧ 0 < t) := by
  have hrt2 : st.refreshToken.getD "" = rt := by rw [hrt]; rfl
  have hmax : ∀ a : Int, (if a < 6 then (6 : Int) else a) = max a 6 := by
    intro a
    rcases lt_or_le a 6 with h | h
    · rw [if_pos h, max_eq_right h.le]
    · rw [if_neg (not_lt.mpr h), max_eq_left h]
  constructor
  · rw [loadSession]
    simp only [hrt2, if_pos hne]
    rw [hmax]
  · intro t ht
    rw [loadSession] at ht
    simp only [hrt2, if_pos hne] at ht
    rw [hmax] at ht
    have h6 : (6 : Int) ≤ max (st.expiresIn.getD (-1) - (now - st.loginTime.getD 0)) 6 :=
      le_max_right _ _
    obtain rfl : max (st.expiresIn.getD (-1) - (now - st.loginTime.getD 0)) 6 = t :=
      Option.some_injective _ ht
    exact ⟨h6, by omega⟩

/-- C7 witness: `expires_in = 3600`, `login_time = now - 3650` arms the
timer at exactly the 6-second floor. -/
theorem load_session_refresh_timer_floor_witness :
    (loadSession ⟨none, some 3600, none, some "r", some 96350⟩ 100000).2 = some 6 := by
  rw [(load_session_refresh_timer_floor ⟨none, some 3600, none, some "r", some 96350⟩
        100000 "r" rfl (by decide)).1]
  have h : max (3600 - (100000 - 96350) : Int) 6 = 6 := max_eq_right (by norm_num)
  simp [h]

theorem check_scrobbled_true (st : PlayState) (now : Int) (h : st.scrobbled = true) :
    checkScrobblePrevSong st now = (st, none) := by
  rw [checkScrobblePrevSong]
  rw [if_neg]
  intro hc
  rw [h] at hc
  exact hc.1 rfl

theorem checkRuns_scrobbled_true (st : PlayState) (nows : List Int)
    (h : st.scrobbled = true) : checkRuns st nows = [] := by
  induction nows with
  | nil => rfl
  | cons now rest ih =>
    rw [checkRuns, check_scrobbled_true st now h]
    exact ih

theorem check_some_scrobbled (st : PlayState) (now : Int) (st1 : PlayState) (a : QueueAdd)
    (h : checkScrobblePrevSong st now = (st1, some a)) : st1.scrobbled = true := by
  rw [checkScrobblePrevSong, scrobble] at h
  split_ifs at h <;>
    simp only [Prod.mk.injEq] at h <;>
    first
      | exact Option.noConfusion h.2
      | rw [← h.1]

/-- C8: a tracked radio/live item with good metadata that was never
explicitly scrobbled is, on evaluation for replacement (the shared phase
of `UpdateNowPlaying` and `ClearPlaying`), enqueued as a derived scrobble
with the elapsed time `max(now - tracked_start, 0)` as its duration if and
only if that elapsed time exceeds 30 seconds. -/
theorem derived_scrobble_threshold (st : PlayState) (now : Int)
    (h1 : st.scrobbled = false) (h2 : st.songPlaying.metadataGood = true)
    (h3 : st.songPlaying.isRadio = true) :
    ((checkScrobblePrevSong st now).2
      = if 30 < max (now - st.timestamp) 0 then
          some ⟨{ st.songPlaying with
                  lengthNanosec := max (now - st.timestamp) 0 * kNsecPerSec }, st.timestamp⟩
        else none)
    ∧ (clearPlaying st now).2 = (checkScrobblePrevSong st now).2
    ∧ ∀ song : Song, (updateNowPlaying st song now).2 = (checkScrobblePrevSong st now).2 := by
  refine ⟨?_, rfl, fun _ => rfl⟩
  have hdur : (if now - st.timestamp < 0 then (0 : Int) else now - st.timestamp)
      = max (now - st.timestamp) 0 := by
    rcases lt_or_le (now - st.timestamp) 0 with h | h
    · rw [if_pos h, max_eq_right h.le]
    · rw [if_neg (not_lt.mpr h), max_eq_left h]
  rw [checkScrobblePrevSong]
  simp only [hdur]
  by_cases hgt : 30 < max (now - st.timestamp) 0
  · rw [if_pos ⟨by simp [h1], h2, h3, hgt⟩, if_pos hgt, scrobble,
      if_neg (by simp [h2])]
  · rw [if_neg (by intro hc; exact hgt hc.2.2.2), if_neg hgt]

/-- C8 witness: a live item tracked from T=0 enqueues a 45-second derived
scrobble when cleared at T=45 and nothing when cleared at T=10. -/
theorem derived_scrobble_threshold_witness :
    (clearPlaying ⟨⟨7, 3, true, true, 0⟩, false, 0⟩ 45).2
      = some ⟨⟨7, 3, true, true, 45 * kNsecPerSec⟩, 0⟩ ∧
    (clearPlaying ⟨⟨7, 3, true, true, 0⟩, false, 0⟩ 10).2 = none := by
  have h45 := derived_scrobble_threshold ⟨⟨7, 3, true, true, 0⟩, false, 0⟩ 45 rfl rfl rfl
  have h10 := derived_scrobble_threshold ⟨⟨7, 3, true, true, 0⟩, false, 0⟩ 10 rfl rfl rfl
  constructor
  · rw [h45.2.1, h45.1]
    norm_num
  · rw [h10.2.1, h10.1]
    norm_num

/-- C9: an explicit `Scrobble()` accepted for the tracked item (matching
id and URL, good metadata) sets the scrobbled flag, after which no
evaluation for replacement enqueues a derived scrobble for it; and along
any sequence of such evaluations of one tracked item (which every
evaluation leaves in place), at most one derived scrobble is ever
enqueued. -/
theorem at_most_one_derived_scrobble (st : PlayState) (nows : List Int) (song : Song) :
    ((song.id = st.songPlaying.id ∧ song.urlId = st.songPlaying.urlId ∧
        song.metadataGood = true) →
      (scrobble st song).1.scrobbled = true ∧ checkRuns (scrobble st song).1 nows = [])
    ∧ (checkRuns st nows).length ≤ 1
    ∧ ∀ now : Int, ((checkScrobblePrevSong st now).1).songPlaying = st.songPlaying := by
  refine ⟨?_, ?_, ?_⟩
  · intro h
    have hacc : (scrobble st song).1 = { st with scrobbled := true } := by
      rw [scrobble, if_neg]
      intro hc
      rcases hc with hc | hc | hc
      · exact hc h.1
      · exact hc h.2.1
      · rw [h.2.2] at hc
        exact hc rfl
    rw [hacc]
    exact ⟨rfl, checkRuns_scrobbled_true _ nows rfl⟩
  · induction nows generalizing st with
    | nil => simp [checkRuns]
    | cons now rest ih =>
      rcases hE : checkScrobblePrevSong st now with ⟨st1, a⟩
      cases a with
      | none =>
        rw [checkRuns, hE]
        exact ih st1
      | some x =>
        rw [checkRuns, hE]
        show (x :: checkRuns st1 rest).length ≤ 1
        rw [checkRuns_scrobbled_true st1 rest (check_some_scrobbled st now st1 x hE)]
        simp
  · intro now
    rw [checkScrobblePrevSong, scrobble]
    split_ifs <;> rfl

/-- C9 witness: after an explicit scrobble of the tracked live item, later
evaluations at T=45 and T=100 enqueue nothing. -/
theorem at_most_one_derived_scrobble_witness :
    (scrobble ⟨⟨7, 3, true, true, 0⟩, false, 0⟩ ⟨7, 3, true, true, 0⟩).1.scrobbled = true ∧
    checkRuns (scrobble ⟨⟨7, 3, true, true, 0⟩, false, 0⟩ ⟨7, 3, true, true, 0⟩).1
      [45, 100] = [] :=
  (at_most_one_derived_scrobble ⟨⟨7, 3, true, true, 0⟩, false, 0⟩ [45, 100]
      ⟨7, 3, true, true, 0⟩).1 ⟨rfl, rfl, rfl⟩

end LB
